import Mathlib

/-!
Verification development for the `fastapi_caching_route` response-caching layer
(`src/fastapi_caching_route/main.py`).  The Python source is shallowly embedded:
bytes are `List Nat`, Python `dict`s are association lists with first-match
lookup and update-or-append assignment, exceptions are `Except`, and the
per-request interceptor is a pure state-passing function over an explicit
store value.
-/

/-! ### Python dict model

`dictGet`/`dictSet` model `d[k]` lookup (`dict.get`) and `d[k] = v` assignment:
assignment overwrites the first (in a real dict: unique) matching key in place,
otherwise appends at the end, matching insertion-order semantics. -/

def dictGet {κ β : Type} [DecidableEq κ] (d : List (κ × β)) (k : κ) : Option β :=
  match d with
  | [] => none
  | e :: rest => if e.1 = k then some e.2 else dictGet rest k

def dictSet {κ β : Type} [DecidableEq κ] (d : List (κ × β)) (k : κ) (v : β) :
    List (κ × β) :=
  match d with
  | [] => [(k, v)]
  | e :: rest => if e.1 = k then (k, v) :: rest else e :: dictSet rest k v

/-- Python truthiness of an optional string (`None` and `''` are falsy). -/
def strTruthy : Option String → Bool
  | none => false
  | some s => !s.data.isEmpty

/-! ### SHA-256 (`hashlib.sha256`), over byte lists, words as `Nat` mod 2^32 -/

def M32 : Nat := 4294967296

def rotr32 (n x : Nat) : Nat := ((x >>> n) ||| (x <<< (32 - n))) % M32

def shaCh (x y z : Nat) : Nat := (x &&& y) ^^^ ((x ^^^ (M32 - 1)) &&& z)

def shaMaj (x y z : Nat) : Nat := (x &&& y) ^^^ (x &&& z) ^^^ (y &&& z)

def bigSigma0 (x : Nat) : Nat := rotr32 2 x ^^^ rotr32 13 x ^^^ rotr32 22 x

def bigSigma1 (x : Nat) : Nat := rotr32 6 x ^^^ rotr32 11 x ^^^ rotr32 25 x

def smallSigma0 (x : Nat) : Nat := rotr32 7 x ^^^ rotr32 18 x ^^^ (x >>> 3)

def smallSigma1 (x : Nat) : Nat := rotr32 17 x ^^^ rotr32 19 x ^^^ (x >>> 10)

def shaK : List Nat :=
  [1116352408, 1899447441, 3049323471, 3921009573, 961987163,
   1508970993, 2453635748, 2870763221, 3624381080, 310598401,
   607225278, 1426881987, 1925078388, 2162078206, 2614888103,
   3248222580, 3835390401, 4022224774, 264347078, 604807628,
   770255983, 1249150122, 1555081692, 1996064986, 2554220882,
   2821834349, 2952996808, 3210313671, 3336571891, 3584528711,
   113926993, 338241895, 666307205, 773529912, 1294757372,
   1396182291, 1695183700, 1986661051, 2177026350, 2456956037,
   2730485921, 2820302411, 3259730800, 3345764771, 3516065817,
   3600352804, 4094571909, 275423344, 430227734, 506948616,
   659060556, 883997877, 958139571, 1322822218, 1537002063,
   1747873779, 1955562222, 2024104815, 2227730452, 2361852424,
   2428436474, 2756734187, 3204031479, 3329325298]

def shaH0 : List Nat :=
  [1779033703, 3144134277, 1013904242, 2773480762,
   1359893119, 2600822924, 528734635, 1541459225]

/-- Big-endian byte expansion of `v` into `n` bytes. -/
def beBytes : Nat → Nat → List Nat
  | 0, _ => []
  | n + 1, v => beBytes n (v / 256) ++ [v % 256]

def bytesToWords : List Nat → List Nat
  | a :: b :: c :: d :: rest => (((a * 256 + b) * 256 + c) * 256 + d) :: bytesToWords rest
  | _ => []

def extendSchedule : Nat → Array Nat → Array Nat
  | 0, w => w
  | n + 1, w =>
      let i := w.size
      extendSchedule n
        (w.push ((smallSigma1 w[i - 2]! + w[i - 7]! + smallSigma0 w[i - 15]! +
          w[i - 16]!) % M32))

def shaRound (s : Nat × Nat × Nat × Nat × Nat × Nat × Nat × Nat) (kt wt : Nat) :
    Nat × Nat × Nat × Nat × Nat × Nat × Nat × Nat :=
  match s with
  | (a, b, c, d, e, f, g, h) =>
      let t1 := (h + bigSigma1 e + shaCh e f g + kt + wt) % M32
      let t2 := (bigSigma0 a + shaMaj a b c) % M32
      ((t1 + t2) % M32, a, b, c, (d + t1) % M32, e, f, g)

def shaBlock (hs : List Nat) (block : List Nat) : List Nat :=
  let w := extendSchedule 48 (bytesToWords block).toArray
  let s0 := (hs[0]!, hs[1]!, hs[2]!, hs[3]!, hs[4]!, hs[5]!, hs[6]!, hs[7]!)
  match (List.zip shaK w.toList).foldl (fun s kw => shaRound s kw.1 kw.2) s0 with
  | (a, b, c, d, e, f, g, h) =>
      [(hs[0]! + a) % M32, (hs[1]! + b) % M32, (hs[2]! + c) % M32,
       (hs[3]! + d) % M32, (hs[4]! + e) % M32, (hs[5]! + f) % M32,
       (hs[6]! + g) % M32, (hs[7]! + h) % M32]

def sha256pad (msg : List Nat) : List Nat :=
  let len := msg.length
  let padLen := (64 - ((len + 9) % 64)) % 64
  msg ++ 0x80 :: (List.replicate padLen 0 ++ beBytes 8 (len * 8))

/-- Split into 64-byte blocks (fuel-based structural recursion). -/
def chunksOf64 : Nat → List Nat → List (List Nat)
  | 0, _ => []
  | _, [] => []
  | fuel + 1, l => l.take 64 :: chunksOf64 fuel (l.drop 64)

def sha256words (msg : List Nat) : List Nat :=
  (chunksOf64 (sha256pad msg).length (sha256pad msg)).foldl shaBlock shaH0

/-- Model of `hashlib.sha256(content).digest()` as a list of 32 bytes. -/
def sha256digest (msg : List Nat) : List Nat :=
  (sha256words msg).foldr (fun w acc => beBytes 4 w ++ acc) []

def hexDigitChar (n : Nat) : Char := "0123456789abcdef".data.getD n '0'

/-- Model of `hashlib.sha256(content).hexdigest()`. -/
def sha256hex (msg : List Nat) : String :=
  String.mk ((sha256digest msg).foldr
    (fun b acc => hexDigitChar (b / 16) :: hexDigitChar (b % 16) :: acc) [])

/-! ### base64 (`base64.b64encode(...).decode()`) -/

def b64digits : List Char :=
  "ABCDEFGHIJKLMNOPQRSTUVWXYZabcdefghijklmnopqrstuvwxyz0123456789+/".data

def b64char (n : Nat) : Char := b64digits.getD n 'A'

def b64groups : List Nat → List Char
  | [] => []
  | [a] => [b64char (a / 4), b64char (a % 4 * 16), '=', '=']
  | [a, b] => [b64char (a / 4), b64char (a % 4 * 16 + b / 16), b64char (b % 16 * 4), '=']
  | a :: b :: c :: rest =>
      b64char (a / 4) :: b64char (a % 4 * 16 + b / 16) ::
        b64char (b % 16 * 4 + c / 64) :: b64char (c % 64) :: b64groups rest

def base64encode (bs : List Nat) : String := String.mk (b64groups bs)

/-! ### UTF-8 encoding (`str.encode('utf-8')`) -/

def utf8Char (c : Char) : List Nat :=
  let n := c.toNat
  if n < 0x80 then [n]
  else if n < 0x800 then [0xC0 ||| (n >>> 6), 0x80 ||| (n &&& 0x3F)]
  else if n < 0x10000 then
    [0xE0 ||| (n >>> 12), 0x80 ||| ((n >>> 6) &&& 0x3F), 0x80 ||| (n &&& 0x3F)]
  else
    [0xF0 ||| (n >>> 18), 0x80 ||| ((n >>> 12) &&& 0x3F),
     0x80 ||| ((n >>> 6) &&& 0x3F), 0x80 ||| (n &&& 0x3F)]

def utf8Bytes (s : String) : List Nat :=
  s.data.foldr (fun c acc => utf8Char c ++ acc) []

/-! ### HTTP data model

Headers are Python dicts `str -> str` (starlette normalizes header names to
lower case on the wire; the embedding uses the keys as the code writes them).
Bodies are byte lists.  `Response` mirrors the fields of a materialized
starlette `Response` that the caching code reads and writes. -/

abbrev Headers := List (String × String)

structure Request where
  path : String
  query_params : List (String × String)
  headers : Headers
deriving DecidableEq

structure Response where
  status_code : Nat
  body : List Nat
  headers : Headers
  media_type : Option String
deriving DecidableEq

/-- The `CachedResponse` TypedDict: content, headers and media type. -/
structure CachedResponse where
  content : List Nat
  headers : Headers
  media_type : Option String
deriving DecidableEq

/-- A starlette `StreamingResponse`: its chunk sequence plus the response
fields the capture code reads (str chunks are modelled as already encoded to
bytes with the response charset). -/
structure StreamingResp where
  status_code : Nat
  headers : Headers
  media_type : Option String
  chunks : List (List Nat)
deriving DecidableEq

/-- Python exceptions that the embedded code can raise. -/
inductive PyErr
  | storeErr
  | keyErr
deriving DecidableEq

deriving instance DecidableEq for Except

/-- Constructor state of `FastAPICache` (plus `self._inner.namespace`, the
root namespace owned by the aiocache instance, as `inner_namespace`). -/
structure CacheConfig where
  inner_namespace : Option String
  concat_namespace : Bool := true
  cache_header : String := "X-Cache"
  cache_header_hit : String := "HIT"
  cache_header_miss : String := "MISS"
  accepted_status_codes : List Nat := [200]
deriving DecidableEq

def DEFAULT_ACCEPTED_STATUS_CODES : List Nat := [200]

/-- The per-route `CacheParamsBase` dict (`nspace` is its `namespace` key;
`ttl` is only passed through to the store and not modelled). -/
structure CachingParams where
  nspace : Option String
deriving DecidableEq

/-- Embedding of `FastAPICache.check_namespace`.  The source mutates
`caching_params['namespace']` in place; the returned pair is
(returned namespace, the dict after the call). -/
def check_namespace (cfg : CacheConfig) (caching_params : CachingParams) :
    Option String × CachingParams :=
  let nspace := caching_params.nspace
  let root := cfg.inner_namespace
  if cfg.concat_namespace && strTruthy root && strTruthy nspace then
    let nspace2 := root.getD "" ++ ":" ++ nspace.getD ""
    (some nspace2, { caching_params with nspace := some nspace2 })
  else
    (nspace, caching_params)

/-- Embedding of `FastAPICache.set_cache_header` (a dict assignment on the given headers). -/
def set_cache_header (cfg : CacheConfig) (headers : Headers) (hit : Bool) : Headers :=
  dictSet headers cfg.cache_header
    (if hit then cfg.cache_header_hit else cfg.cache_header_miss)

/-- Embedding of `_set_etag`: the quoted hexdigest of `content` is assigned to the `etag` header key. -/
def set_etag (headers : Headers) (content : List Nat) : Headers :=
  dictSet headers "etag" ("\"" ++ sha256hex content ++ "\"")

/-- Embedding of `_build_cached_response`.  `headers = cached['headers'].copy()`; a
missing `etag` key under a present `If-None-Match` raises `KeyError`
(`headers['etag']`).  A falsy (absent or empty) `If-None-Match` skips the
conditional branch (`if etag := request.headers.get('if-none-match', None)`). -/
def build_cached_response (request : Request) (cached : CachedResponse) :
    Except PyErr Response :=
  let headers := cached.headers
  let etagOpt := dictGet request.headers "if-none-match"
  if strTruthy etagOpt then
    let etag0 := etagOpt.getD ""
    let etag := if "W/".data.isPrefixOf etag0.data then String.mk (etag0.data.drop 2)
      else etag0
    match dictGet headers "etag" with
    | none => .error .keyErr
    | some stored =>
        if stored = etag then
          .ok { status_code := 304, body := [],
                headers := dictSet headers "content-length" "0",
                media_type := cached.media_type }
        else
          .ok { status_code := 200, body := cached.content, headers := headers,
                media_type := cached.media_type }
  else
    .ok { status_code := 200, body := cached.content, headers := headers,
          media_type := cached.media_type }

/-- The cache-hit arm of `CachingRoute.get_route_handler`
(`cache.set_cache_header(cached['headers'], hit=True)` followed by
`_build_cached_response(request, cached)`).  The second component is the
state of the cached entry after the call: `set_cache_header` writes into the
entry's own headers dict, `_build_cached_response` copies. -/
def serve_hit (cfg : CacheConfig) (request : Request) (cached : CachedResponse) :
    Except PyErr Response × CachedResponse :=
  let mutated := { cached with headers := set_cache_header cfg cached.headers true }
  (build_cached_response request mutated, mutated)

/-! ### The cache store (aiocache `BaseCache`, opaque collaborator)

Keys are (namespace, cache key) pairs exactly as passed by the interceptor.
Failure injection flags model a backend whose `get`/`set` raises; `set_result`
is the boolean an (otherwise successful) `set` returns — the interceptor
discards it. -/

structure Store where
  entries : List ((Option String × String) × CachedResponse)
  get_fails : Bool := false
  set_fails : Bool := false
  set_result : Bool := true
deriving DecidableEq

def store_get (s : Store) (cache_key : String) (nspace : Option String) :
    Except PyErr (Option CachedResponse) :=
  if s.get_fails then .error .storeErr
  else .ok (dictGet s.entries (nspace, cache_key))

def store_set (s : Store) (cache_key : String) (v : CachedResponse)
    (nspace : Option String) : Except PyErr (Bool × Store) :=
  if s.set_fails then .error .storeErr
  else .ok (s.set_result, { s with entries := dictSet s.entries (nspace, cache_key) v })

/-- The request handler `app` built by `CachingRoute.get_route_handler` for a
route that has a cache binding, lines 305–338 of `main.py` (dependency
resolution is skipped: it only affects the overrides provider handed to the
real handler, which is abstracted as `handler`; the streaming capture branch
is modelled separately by `cache_streaming_response`).  Returns the result
(`Except` for a propagated exception), the store after the call and the
caching-params dict after the call. -/
def route_app (cfg : CacheConfig) (key_builder : Request → String)
    (caching_params : CachingParams) (handler : Request → Response)
    (store : Store) (request : Request) :
    Except PyErr Response × Store × CachingParams :=
  let nsp := check_namespace cfg caching_params
  let nspace := nsp.1
  let params := nsp.2
  let cache_key := key_builder request
  match store_get store cache_key nspace with
  | .error e => (.error e, store, params)
  | .ok (some cached) =>
      let cached := { cached with headers := set_cache_header cfg cached.headers true }
      (build_cached_response request cached, store, params)
  | .ok none =>
      let response := handler request
      if response.status_code ∈ cfg.accepted_status_codes then
        let response := { response with headers := set_etag response.headers response.body }
        let cached : CachedResponse :=
          ⟨response.body, response.headers, response.media_type⟩
        match store_set store cache_key cached params.nspace with
        | .error e => (.error e, store, params)
        | .ok (_, store2) =>
            let response :=
              { response with headers := set_cache_header cfg response.headers false }
            (.ok response, store2, params)
      else
        (.ok response, store, params)

/-! ### Streaming capture (`_cache_streaming_response`, `_content_stream`) -/

def joinList : List (List Nat) → List Nat
  | [] => []
  | x :: rest => x ++ joinList rest

/-- Python `range(start, stop, step)` for a positive step. -/
def pyRange (start stop step : Nat) : List Nat :=
  List.range' start ((stop - start + step - 1) / step) step

/-- The loop body of `_content_stream`: `b` is the cursor, the argument list
holds the remaining values of `e`; each iteration yields `content[b:e]` and
sets `b = e`; the final `yield content[b:]` follows the loop. -/
def content_stream_go (content : List Nat) (b : Nat) : List Nat → List (List Nat)
  | [] => [content.drop b]
  | e :: rest => ((content.take e).drop b) :: content_stream_go content e rest

/-- Embedding of `_content_stream(content)` as the list of yielded chunks
(`for e in range(b, len(content), 10240)` with `b = 0`). -/
def content_stream (content : List Nat) : List (List Nat) :=
  content_stream_go content 0 (pyRange 0 content.length 10240)

/-- Embedding of `_cache_streaming_response`: drain the upstream chunks into one buffer,
set the ETag, build the entry, and wrap the re-chunked buffer in a fresh
`StreamingResponse` with the same status, headers and media type. -/
def cache_streaming_response (response : StreamingResp) :
    CachedResponse × StreamingResp :=
  let content := joinList response.chunks
  let headers := set_etag response.headers content
  (⟨content, headers, response.media_type⟩,
   ⟨response.status_code, headers, response.media_type, content_stream content⟩)

/-! ### Auto-derived key builder (`_key_builder_factory`) -/

/-- One entry of the route's OpenAPI `parameters` list: its `name`, `in`
location and `schema.default` (absent default reads back as `''`). -/
structure OApiParam where
  name : String
  in_loc : String
  schema_default : Option String
deriving DecidableEq

/-- Python string comparison: lexicographic on code points. -/
def charsLE (xs ys : List Char) : Bool :=
  match xs, ys with
  | [], _ => true
  | c :: cs, d :: ds =>
      if c.toNat < d.toNat then true
      else if d.toNat < c.toNat then false
      else charsLE cs ds
  | _, [] => false

def strLE (s t : String) : Bool := charsLE s.data t.data

/-- Stable insertion step: a later element goes after existing elements with
a smaller-or-equal name. -/
def insertByName (p : OApiParam) : List OApiParam → List OApiParam
  | [] => [p]
  | q :: rest => if strLE q.name p.name then q :: insertByName p rest else p :: q :: rest

/-- Model of `sorted(params, key=lambda p: p['name'])` (stable sort by name). -/
def sortByName (params : List OApiParam) : List OApiParam :=
  params.foldl (fun acc p => insertByName p acc) []

/-- The result of `sorted(params, key=lambda p: p['name'])` filtered to query parameters,
each paired with its declared default. -/
def sortedQueryDefaults (params : List OApiParam) : List (String × String) :=
  (sortByName params).filterMap
    (fun p => if p.in_loc = "query" then some (p.name, p.schema_default.getD "")
      else none)

/-- Model of `request.query_params.get(k)`: starlette builds a dict from the parsed
query pairs, so the last occurrence of a name wins. -/
def qpGet (qs : List (String × String)) (k : String) : Option String :=
  dictGet qs.reverse k

/-- Model of the Python string join `sep.join(parts)`. -/
def joinSep (sep : String) : List String → String
  | [] => ""
  | [x] => x
  | x :: rest => x ++ sep ++ joinSep sep rest

/-- The `_impl` closure returned by `_key_builder_factory`. -/
def key_builder_impl (params_ : List (String × String)) (request : Request) : String :=
  let key := request.path ++ "?" ++
    joinSep "&" (params_.map (fun kd => kd.1 ++ "=" ++ ((qpGet request.query_params kd.1).getD kd.2)))
  base64encode (sha256digest (utf8Bytes key))

/-- Embedding of `_key_builder_factory(params)`. -/
def key_builder_factory (params : List OApiParam) : Request → String :=
  fun request => key_builder_impl (sortedQueryDefaults params) request


/-! ### Concrete fixtures used by closed theorems -/

def cfgPlain : CacheConfig := { inner_namespace := none }

def cfgRooted : CacheConfig := { inner_namespace := some "root" }

def kbConst : Request → String := fun _ => "k"

def handler200 : Request → Response := fun _ => ⟨200, [0x61], [], some "text/plain"⟩

def handler404 : Request → Response := fun _ => ⟨404, [], [], none⟩

def reqPlain : Request := ⟨"/", [], []⟩

/-- A request whose `If-None-Match` equals the quoted SHA-256 hex digest of
the byte `0x61` (the body of `handler200`). -/
def reqCond : Request :=
  ⟨"/", [],
   [("if-none-match",
     "\"ca978112ca1bbdcafac231b39a23dc4da786eff8147c4e72b9807785afee48bb\"")]⟩

/-- A request whose `If-None-Match` carries a weak-validator marker followed by
the quoted SHA-256 hex digest of the empty byte string. -/
def reqCondEmpty : Request :=
  ⟨"/", [],
   [("if-none-match",
     "W/\"e3b0c44298fc1c149afbf4c8996fb92427ae41e4649b934ca495991b7852b855\"")]⟩

def storeEmpty : Store := { entries := [] }

def storeGetFail : Store := { entries := [], get_fails := true }

def storeSetFail : Store := { entries := [], set_fails := true }

def entryPlain : CachedResponse := ⟨[0x61], [("etag", "\"x\"")], some "text/plain"⟩

def streamEmpty : StreamingResp := ⟨200, [], none, []⟩

def paramsQ : List OApiParam := [⟨"b", "query", some "b"⟩, ⟨"a", "query", none⟩]

def reqQ1 : Request := ⟨"/query", [("a", "a"), ("b", "b")], []⟩

def reqQ2 : Request := ⟨"/query", [("b", "b"), ("a", "a")], []⟩

/-- Projection helpers for closed statements about interceptor runs. -/
def result_status_header (cfg : CacheConfig)
    (r : Except PyErr Response × Store × CachingParams) : Option (Option String) :=
  match r.1 with
  | .ok resp => some (dictGet resp.headers cfg.cache_header)
  | .error _ => none

def result_body (r : Except PyErr Response × Store × CachingParams) :
    Option (List Nat) :=
  match r.1 with
  | .ok resp => some resp.body
  | .error _ => none

/-- Run A: rooted cache, per-route namespace `user`, same request twice. -/
def runA1 : Except PyErr Response × Store × CachingParams :=
  route_app cfgRooted kbConst ⟨some "user"⟩ handler200 storeEmpty reqPlain

def runA2 : Except PyErr Response × Store × CachingParams :=
  route_app cfgRooted kbConst runA1.2.2 handler200 runA1.2.1 reqPlain

/-- Run B: no namespaces, request carrying a matching validator, twice. -/
def runB1 : Except PyErr Response × Store × CachingParams :=
  route_app cfgPlain kbConst ⟨none⟩ handler200 storeEmpty reqCond

def runB2 : Except PyErr Response × Store × CachingParams :=
  route_app cfgPlain kbConst runB1.2.2 handler200 runB1.2.1 reqCond

/-! ### Dict lemmas -/

theorem dictGet_dictSet_self {κ β : Type} [DecidableEq κ] (d : List (κ × β))
    (k : κ) (v : β) : dictGet (dictSet d k v) k = some v := by
  induction d with
  | nil => simp [dictGet, dictSet]
  | cons e rest ih =>
      by_cases h : e.1 = k
      · simp [dictGet, dictSet, h]
      · simp [dictGet, dictSet, h, ih]

theorem dictGet_dictSet_ne {κ β : Type} [DecidableEq κ] (d : List (κ × β))
    (k k' : κ) (v : β) (h : k' ≠ k) :
    dictGet (dictSet d k v) k' = dictGet d k' := by
  induction d with
  | nil => simp [dictGet, dictSet, Ne.symm h]
  | cons e rest ih =>
      by_cases he : e.1 = k
      · simp [dictGet, dictSet, he, Ne.symm h]
      · by_cases he' : e.1 = k'
        · simp [dictGet, dictSet, he, he', h]
        · simp [dictGet, dictSet, he, he', ih]

/-! ### Claim C2: conditional responses and ETag stability -/

/-- Claim C2: for every cached entry (whose headers carry the ETag written by
`_set_etag` over its stored content) and every request, the stored ETag is the
quoted SHA-256 hex digest of the entry's exact stored content; a request
without a (truthy) `If-None-Match` gets the full content, headers and media
type; a request whose validator, after stripping a leading `W/` marker,
equals the stored ETag byte-for-byte gets status 304 with empty body,
`content-length: 0` and all other entry headers preserved; a differing
validator gets the full response. -/
theorem c2_conditional_etag (hs : Headers) (content : List Nat)
    (media : Option String) (request : Request) :
    dictGet (set_etag hs content) "etag" = some ("\"" ++ sha256hex content ++ "\"") ∧
    ((dictGet request.headers "if-none-match" = none ∨
      dictGet request.headers "if-none-match" = some "") →
      build_cached_response request ⟨content, set_etag hs content, media⟩ =
        .ok ⟨200, content, set_etag hs content, media⟩) ∧
    (∀ v : String, dictGet request.headers "if-none-match" = some v → v ≠ "" →
      (((if "W/".data.isPrefixOf v.data then String.mk (v.data.drop 2) else v) =
          "\"" ++ sha256hex content ++ "\"") →
        build_cached_response request ⟨content, set_etag hs content, media⟩ =
          .ok ⟨304, [], dictSet (set_etag hs content) "content-length" "0", media⟩ ∧
        dictGet (dictSet (set_etag hs content) "content-length" "0") "content-length" =
          some "0" ∧
        (∀ k : String, k ≠ "content-length" →
          dictGet (dictSet (set_etag hs content) "content-length" "0") k =
            dictGet (set_etag hs content) k)) ∧
      (((if "W/".data.isPrefixOf v.data then String.mk (v.data.drop 2) else v) ≠
          "\"" ++ sha256hex content ++ "\"") →
        build_cached_response request ⟨content, set_etag hs content, media⟩ =
          .ok ⟨200, content, set_etag hs content, media⟩)) := by
  have hetag : dictGet (set_etag hs content) "etag" =
      some ("\"" ++ sha256hex content ++ "\"") := by
    simp [set_etag, dictGet_dictSet_self]
  refine ⟨hetag, ?_, ?_⟩
  · rintro (h | h) <;> simp [build_cached_response, h, strTruthy]
  · intro v hv hne
    have hvne : v.data ≠ [] := by
      intro hd
      apply hne
      cases v with
      | _ l => cases hd; rfl
    have htr : strTruthy (some v) = true := by
      cases hd : v.data with
      | nil => exact absurd hd hvne
      | cons a l => simp [strTruthy, hd]
    constructor
    · intro heq
      refine ⟨?_, dictGet_dictSet_self _ _ _, fun k hk => dictGet_dictSet_ne _ _ _ _ hk⟩
      simp [build_cached_response, hv, htr, hetag]
      simpa using heq.symm
    · intro hne2
      simp [build_cached_response, hv, htr, hetag]
      intro hh
      exact hne2 (by simpa using hh.symm)

theorem c2_witness :
    dictGet reqCondEmpty.headers "if-none-match" =
      some "W/\"e3b0c44298fc1c149afbf4c8996fb92427ae41e4649b934ca495991b7852b855\"" ∧
    build_cached_response reqCondEmpty ⟨[], set_etag [] [], none⟩ =
      .ok ⟨304, [], dictSet (set_etag [] []) "content-length" "0", none⟩ := by
  refine ⟨by decide, ?_⟩
  exact (((c2_conditional_etag [] [] none reqCondEmpty).2.2
    "W/\"e3b0c44298fc1c149afbf4c8996fb92427ae41e4649b934ca495991b7852b855\""
    (by decide) (by decide)).1 (by decide)).1

/-! ### Claim C4: namespace resolution is not idempotent (code bug) -/

/-- Claim C4 (refuting evaluation): with a truthy root namespace, concat
policy and per-route namespace `user`, `check_namespace` returns `root:user`
and writes it back into the params dict, so a second call on the same dict
returns `root:root:user` — double concatenation, not idempotent. -/
theorem c4_check_namespace_double_concat :
    (check_namespace cfgRooted ⟨some "user"⟩).1 = some "root:user" ∧
    (check_namespace cfgRooted (check_namespace cfgRooted ⟨some "user"⟩).2).1 =
      some "root:root:user" ∧
    (check_namespace cfgRooted (check_namespace cfgRooted ⟨some "user"⟩).2).1 ≠
      (check_namespace cfgRooted ⟨some "user"⟩).1 := by decide

/-! ### Claim C5: entry mutation during cache-hit serving -/

/-- Claim C5 counterexample: serving a cache hit does mutate the entry's
headers mapping in place (`set_cache_header(cached['headers'], hit=True)`),
so the entry after hit-serving differs from the stored entry. -/
theorem c5_entry_mutated_counterexample :
    (serve_hit cfgPlain reqPlain entryPlain).2 ≠ entryPlain := by decide

/-- Claim C5 (amended): after an entry is served from cache, its content and
media type are unchanged and its headers are changed exactly by writing the
cache-status header in place (every other key reads back unchanged);
conditional-response building itself works on a copy. -/
theorem c5_hit_mutates_only_cache_header (cfg : CacheConfig) (request : Request)
    (cached : CachedResponse) :
    (serve_hit cfg request cached).2.content = cached.content ∧
    (serve_hit cfg request cached).2.media_type = cached.media_type ∧
    (serve_hit cfg request cached).2.headers = set_cache_header cfg cached.headers true ∧
    dictGet (serve_hit cfg request cached).2.headers cfg.cache_header =
      some cfg.cache_header_hit ∧
    (∀ k : String, k ≠ cfg.cache_header →
      dictGet (serve_hit cfg request cached).2.headers k = dictGet cached.headers k) := by
  refine ⟨rfl, rfl, rfl, ?_, ?_⟩
  · simp [serve_hit, set_cache_header, dictGet_dictSet_self]
  · intro k hk
    simp [serve_hit, set_cache_header, dictGet_dictSet_ne _ _ _ _ hk]

theorem c5_witness :
    (serve_hit cfgPlain reqPlain entryPlain).2.content = entryPlain.content ∧
    dictGet (serve_hit cfgPlain reqPlain entryPlain).2.headers "etag" =
      dictGet entryPlain.headers "etag" := by
  refine ⟨(c5_hit_mutates_only_cache_header cfgPlain reqPlain entryPlain).1, ?_⟩
  exact (c5_hit_mutates_only_cache_header cfgPlain reqPlain entryPlain).2.2.2.2 "etag"
    (by decide)

/-! ### Claim C6: a failing store `get` -/

/-- Claim C6 counterexample: with a store whose `get` raises, the interceptor
does not fall back to the real handler (which would have produced an accepted
200 response); the request fails with the store error. -/
theorem c6_failed_get_fails_request :
    (route_app cfgPlain kbConst ⟨none⟩ handler200 storeGetFail reqPlain).1 =
      .error .storeErr ∧
    (handler200 reqPlain).status_code ∈ cfgPlain.accepted_status_codes := by decide

/-- Claim C6 (amended): a `get` that raises propagates out of the interceptor
unchanged — the request fails and the store is untouched; only a `get`
returning no value is treated as a miss. -/
theorem c6_get_error_propagates (cfg : CacheConfig) (key_builder : Request → String)
    (caching_params : CachingParams) (handler : Request → Response) (store : Store)
    (request : Request) (h : store.get_fails = true) :
    (route_app cfg key_builder caching_params handler store request).1 =
      .error .storeErr ∧
    (route_app cfg key_builder caching_params handler store request).2.1 = store := by
  constructor <;> simp [route_app, store_get, h]

theorem c6_witness :
    storeGetFail.get_fails = true ∧
    (route_app cfgPlain kbConst ⟨none⟩ handler200 storeGetFail reqPlain).1 =
      .error .storeErr :=
  ⟨rfl, (c6_get_error_propagates cfgPlain kbConst ⟨none⟩ handler200 storeGetFail
    reqPlain rfl).1⟩

/-! ### Claim C7: a failing store `set` -/

/-- Claim C7 counterexample: with a store whose `set` raises, the request
fails with the store error even though the real handler already produced an
accepted response — the computed response is not returned. -/
theorem c7_failed_set_fails_request :
    (route_app cfgPlain kbConst ⟨none⟩ handler200 storeSetFail reqPlain).1 =
      .error .storeErr := by decide

/-- Claim C7 (amended): on a cache miss with an accepted response, a `set`
that merely reports failure through its boolean return value does not fail
the request — the computed response (ETag set, tagged with the miss header)
is returned; but a `set` that raises propagates and the response is lost. -/
theorem c7_set_outcome (cfg : CacheConfig) (key_builder : Request → String)
    (caching_params : CachingParams) (handler : Request → Response) (store : Store)
    (request : Request)
    (hmiss : store_get store (key_builder request)
      (check_namespace cfg caching_params).1 = .ok none)
    (hacc : (handler request).status_code ∈ cfg.accepted_status_codes) :
    (store.set_fails = false →
      (route_app cfg key_builder caching_params handler store request).1 =
        .ok { handler request with
              headers := set_cache_header cfg
                (set_etag (handler request).headers (handler request).body) false }) ∧
    (store.set_fails = true →
      (route_app cfg key_builder caching_params handler store request).1 =
        .error .storeErr) := by
  constructor <;> intro h <;> simp [route_app, store_set, hmiss, hacc, h]

theorem c7_witness :
    store_get storeEmpty (kbConst reqPlain) (check_namespace cfgPlain ⟨none⟩).1 =
      .ok none ∧
    (route_app cfgPlain kbConst ⟨none⟩ handler200 storeEmpty reqPlain).1 =
      .ok { handler200 reqPlain with
            headers := set_cache_header cfgPlain
              (set_etag (handler200 reqPlain).headers (handler200 reqPlain).body)
              false } := by
  refine ⟨by decide, ?_⟩
  exact (c7_set_outcome cfgPlain kbConst ⟨none⟩ handler200 storeEmpty reqPlain
    (by decide) (by decide)).1 rfl

/-! ### Claim C8: accepted-status filter -/

/-- Claim C8: on a cache miss, a response whose status code is not in the
accepted set is returned unchanged — nothing is stored and no cache-status
header is added; the default accepted set is exactly `[200]`. -/
theorem c8_status_filter (cfg : CacheConfig) (key_builder : Request → String)
    (caching_params : CachingParams) (handler : Request → Response) (store : Store)
    (request : Request)
    (hmiss : store_get store (key_builder request)
      (check_namespace cfg caching_params).1 = .ok none)
    (hstatus : (handler request).status_code ∉ cfg.accepted_status_codes) :
    (route_app cfg key_builder caching_params handler store request).1 =
      .ok (handler request) ∧
    (route_app cfg key_builder caching_params handler store request).2.1 = store ∧
    DEFAULT_ACCEPTED_STATUS_CODES = [200] := by
  refine ⟨?_, ?_, rfl⟩ <;> simp [route_app, hmiss, hstatus]

theorem c8_witness :
    store_get storeEmpty (kbConst reqPlain) (check_namespace cfgPlain ⟨none⟩).1 =
      .ok none ∧
    (handler404 reqPlain).status_code ∉ cfgPlain.accepted_status_codes ∧
    (route_app cfgPlain kbConst ⟨none⟩ handler404 storeEmpty reqPlain).1 =
      .ok (handler404 reqPlain) := by
  refine ⟨by decide, by decide, ?_⟩
  exact (c8_status_filter cfgPlain kbConst ⟨none⟩ handler404 storeEmpty reqPlain
    (by decide) (by decide)).1

/-! ### Streaming lemmas and Claims C9, C10 -/

theorem take_drop_chain (c : List Nat) (b e : Nat) (h : b ≤ e) :
    (c.take e).drop b ++ c.drop e = c.drop b := by
  rw [List.drop_take]
  have h2 : c.drop e = (c.drop b).drop (e - b) := by
    rw [List.drop_drop]
    congr 1
    omega
  rw [h2, List.take_append_drop]

theorem joinList_stream_go (c : List Nat) :
    ∀ (k b : Nat),
      joinList (content_stream_go c b (List.range' (b + 10240) k 10240)) = c.drop b := by
  intro k
  induction k with
  | zero =>
      intro b
      simp [content_stream_go, joinList, List.range']
  | succ k ih =>
      intro b
      rw [List.range'_succ]
      simp only [content_stream_go, joinList]
      rw [ih (b + 10240)]
      exact take_drop_chain c b (b + 10240) (by omega)

theorem stream_go_chunk_le (c : List Nat) :
    ∀ (k b : Nat), c.length ≤ b + 10240 + k * 10240 →
      ∀ ch ∈ content_stream_go c b (List.range' (b + 10240) k 10240),
        ch.length ≤ 10240 := by
  intro k
  induction k with
  | zero =>
      intro b hb ch hch
      simp [content_stream_go, List.range'] at hch
      subst hch
      have h1 : (c.drop b).length = c.length - b := List.length_drop _ _
      omega
  | succ k ih =>
      intro b hb ch hch
      rw [List.range'_succ] at hch
      simp only [content_stream_go, List.mem_cons] at hch
      rcases hch with h | h
      · subst h
        have h1 : ((c.take (b + 10240)).drop b).length =
            (c.take (b + 10240)).length - b := List.length_drop _ _
        have h2 : (c.take (b + 10240)).length ≤ b + 10240 := List.length_take_le _ _
        omega
      · exact ih (b + 10240) (by omega) ch h

theorem content_stream_eq (c : List Nat) :
    content_stream c =
      content_stream_go c 0 (List.range' 0 ((c.length + 10239) / 10240) 10240) := by
  unfold content_stream pyRange
  congr 2

theorem stream_go_slices (c : List Nat) :
    ∀ (k b : Nat),
      content_stream_go c b (List.range' (b + 10240) k 10240) =
        (List.range' b k 10240).map (fun x => (c.take (x + 10240)).drop x) ++
          [c.drop (b + 10240 * k)] := by
  intro k
  induction k with
  | zero =>
      intro b
      simp [content_stream_go, List.range']
  | succ k ih =>
      intro b
      rw [List.range'_succ, List.range'_succ]
      simp only [content_stream_go, List.map_cons, List.cons_append]
      refine congrArg (List.cons _) ?_
      rw [ih (b + 10240)]
      have he : b + 10240 + 10240 * k = b + 10240 * (k + 1) := by omega
      rw [he]

/-- Claim C9: for every buffered streaming content, the replacement chunk
stream concatenates back to exactly the buffered bytes, every chunk is at
most 10 KiB (10240 bytes), and zero-length content yields exactly one empty
chunk, with an empty stored content whose ETag is the digest of the empty
byte string. -/
theorem c9_streaming_reconstruction (response : StreamingResp) :
    joinList (cache_streaming_response response).2.chunks = joinList response.chunks ∧
    (∀ ch ∈ (cache_streaming_response response).2.chunks, ch.length ≤ 10240) ∧
    (joinList response.chunks = [] →
      (cache_streaming_response response).2.chunks = [[]] ∧
      (cache_streaming_response response).1.content = [] ∧
      dictGet (cache_streaming_response response).1.headers "etag" =
        some ("\"" ++ sha256hex [] ++ "\"")) := by
  have hchunks : (cache_streaming_response response).2.chunks =
      content_stream (joinList response.chunks) := rfl
  have hjoin : ∀ c : List Nat, joinList (content_stream c) = c := by
    intro c
    rw [content_stream_eq]
    rcases hK : (c.length + 10239) / 10240 with _ | k
    · have hc : c = [] := List.length_eq_zero.mp (by omega)
      subst hc
      simp [content_stream_go, joinList, List.range']
    · rw [List.range'_succ]
      simp only [content_stream_go, joinList]
      rw [joinList_stream_go c k 0]
      simp
  have hle : ∀ c : List Nat, ∀ ch ∈ content_stream c, ch.length ≤ 10240 := by
    intro c ch hch
    rw [content_stream_eq] at hch
    rcases hK : (c.length + 10239) / 10240 with _ | k
    · rw [hK] at hch
      simp only [List.range', content_stream_go, List.mem_singleton,
        List.drop_zero] at hch
      subst hch
      omega
    · rw [hK] at hch
      rw [List.range'_succ] at hch
      simp only [content_stream_go, List.mem_cons] at hch
      rcases hch with h | h
      · subst h
        have h1 : ((c.take 0).drop 0).length = (c.take 0).length - 0 :=
          List.length_drop _ _
        have h2 : (c.take 0).length ≤ 0 := List.length_take_le _ _
        omega
      · exact stream_go_chunk_le c k 0 (by omega) ch h
  refine ⟨?_, ?_, ?_⟩
  · rw [hchunks, hjoin]
  · rw [hchunks]
    exact hle _
  · intro h
    refine ⟨?_, ?_, ?_⟩
    · rw [hchunks, h]
      rfl
    · show joinList response.chunks = []
      exact h
    · show dictGet (set_etag response.headers (joinList response.chunks)) "etag" = _
      rw [h]
      simp [set_etag, dictGet_dictSet_self]

theorem c9_witness :
    joinList (cache_streaming_response streamEmpty).2.chunks =
      joinList streamEmpty.chunks ∧
    (cache_streaming_response streamEmpty).2.chunks = [[]] :=
  ⟨(c9_streaming_reconstruction streamEmpty).1,
   ((c9_streaming_reconstruction streamEmpty).2.2 rfl).1⟩

/-- Claim C10: for non-empty buffered content the replacement stream yields
`content[0:0]` (an empty chunk) first, followed by the successive
at-most-10-KiB slices `content[x : x + 10240]` for `x` in
`range(0, len(content), 10240)`. -/
theorem c10_leading_empty_chunk (content : List Nat) (h : content ≠ []) :
    content_stream content =
      [] :: (pyRange 0 content.length 10240).map
        (fun x => (content.take (x + 10240)).drop x) := by
  have hpr : pyRange 0 content.length 10240 =
      List.range' 0 ((content.length + 10239) / 10240) 10240 := by
    unfold pyRange
    congr 1
  rw [content_stream_eq, hpr]
  rcases hK : (content.length + 10239) / 10240 with _ | k
  · exact absurd (List.length_eq_zero.mp (by omega)) h
  · conv_lhs => rw [List.range'_succ]
    simp only [content_stream_go, List.take_zero, List.drop_nil]
    conv_lhs => rw [stream_go_slices content k 0]
    conv_rhs => rw [List.range'_concat]
    simp only [List.map_append, List.map_cons, List.map_nil]
    have hfin : content.drop (0 + 10240 * k) =
        (content.take (0 + 10240 * k + 10240)).drop (0 + 10240 * k) := by
      rw [List.take_of_length_le
        (by omega : content.length ≤ 0 + 10240 * k + 10240)]
    rw [hfin]

theorem c10_witness :
    ([0] : List Nat) ≠ [] ∧
    content_stream [0] =
      [] :: (pyRange 0 (List.length ([0] : List Nat)) 10240).map
        (fun x => ((List.take (x + 10240) ([0] : List Nat)).drop x)) :=
  ⟨by decide, c10_leading_empty_chunk [0] (by decide)⟩

/-! ### Claim C3: key determinism -/

theorem dictGet_perm {qs1 qs2 : List (String × String)} (h : qs1.Perm qs2)
    (nd : (qs1.map Prod.fst).Nodup) (k : String) :
    dictGet qs1 k = dictGet qs2 k := by
  induction h with
  | nil => rfl
  | cons x h ih =>
      simp only [List.map_cons, List.nodup_cons] at nd
      by_cases hx : x.1 = k
      · simp [dictGet, hx]
      · simp [dictGet, hx, ih nd.2]
  | swap x y l =>
      by_cases hy : y.1 = k <;> by_cases hx : x.1 = k
      · exfalso
        simp only [List.map_cons, List.nodup_cons, List.mem_cons] at nd
        exact nd.1 (Or.inl (hy.trans hx.symm))
      · simp [dictGet, hy, hx]
      · simp [dictGet, hy, hx]
      · simp [dictGet, hy, hx]
  | trans h1 h2 ih1 ih2 =>
      exact (ih1 nd).trans (ih2 ((h1.map Prod.fst).nodup nd))

theorem qpGet_perm {qs1 qs2 : List (String × String)} (h : qs1.Perm qs2)
    (nd : (qs1.map Prod.fst).Nodup) (k : String) :
    qpGet qs1 k = qpGet qs2 k := by
  unfold qpGet
  refine dictGet_perm ?_ ?_ k
  · exact (qs1.reverse_perm).trans (h.trans (qs2.reverse_perm).symm)
  · rw [List.map_reverse]
    exact List.nodup_reverse.mpr nd

/-- Claim C3: the auto-derived key builder enumerates the declared query
parameters sorted by name, joins `name=value` pairs (value = supplied or
declared default) onto the path, hashes with SHA-256 and base64-encodes; two
requests with the same path and the same effective value for every declared
parameter get the same key, and in particular reordering the supplied query
pairs (with distinct names) never changes the key. -/
theorem c3_key_determinism (params : List OApiParam) (r1 r2 : Request)
    (hpath : r1.path = r2.path) :
    ((∀ k d : String, (k, d) ∈ sortedQueryDefaults params →
        (qpGet r1.query_params k).getD d = (qpGet r2.query_params k).getD d) →
      key_builder_factory params r1 = key_builder_factory params r2) ∧
    (r1.query_params.Perm r2.query_params →
      (r1.query_params.map Prod.fst).Nodup →
      key_builder_factory params r1 = key_builder_factory params r2) := by
  have main : (∀ k d : String, (k, d) ∈ sortedQueryDefaults params →
      (qpGet r1.query_params k).getD d = (qpGet r2.query_params k).getD d) →
      key_builder_factory params r1 = key_builder_factory params r2 := by
    intro heff
    unfold key_builder_factory key_builder_impl
    rw [hpath]
    have hmap : (sortedQueryDefaults params).map
        (fun kd => kd.1 ++ "=" ++ ((qpGet r1.query_params kd.1).getD kd.2)) =
      (sortedQueryDefaults params).map
        (fun kd => kd.1 ++ "=" ++ ((qpGet r2.query_params kd.1).getD kd.2)) := by
      apply List.map_congr_left
      intro kd hkd
      have heq := heff kd.1 kd.2 (by simpa using hkd)
      simp [heq]
    rw [hmap]
  refine ⟨main, fun hperm hnd => main ?_⟩
  intro k d _
  rw [qpGet_perm hperm hnd k]

theorem c3_witness :
    reqQ1.path = reqQ2.path ∧
    reqQ1.query_params.Perm reqQ2.query_params ∧
    (reqQ1.query_params.map Prod.fst).Nodup ∧
    key_builder_factory paramsQ reqQ1 = key_builder_factory paramsQ reqQ2 := by
  have hp : reqQ1.query_params.Perm reqQ2.query_params := List.Perm.swap _ _ _
  have hn : (reqQ1.query_params.map Prod.fst).Nodup := by decide
  exact ⟨rfl, hp, hn, (c3_key_determinism paramsQ reqQ1 reqQ2 rfl).2 hp hn⟩

/-! ### Claim C1: MISS then HIT for identical requests -/

/-- Claim C1 counterexample: (i) on a rooted cache with concat policy and a
per-route namespace, the second identical cacheable request is tagged `MISS`
again, not `HIT` (the namespace write-back of `check_namespace` moved the
lookup to `root:root:user`); (ii) a request carrying an `If-None-Match`
validator matching the response's ETag gets a full `MISS` body first and a
`HIT`-tagged 304 with an empty body second — not a byte-identical body. -/
theorem c1_counterexample :
    result_status_header cfgRooted runA1 = some (some "MISS") ∧
    result_status_header cfgRooted runA2 = some (some "MISS") ∧
    result_body runB1 = some [0x61] ∧
    result_status_header cfgPlain runB2 = some (some "HIT") ∧
    result_body runB2 = some [] := by decide

/-- Claim C1 (amended): for a bound route whose effective namespace is stable
(not all of: concat policy, truthy root namespace, truthy per-route
namespace), a request without a truthy `If-None-Match` header, a store whose
get/set do not raise, a first lookup that misses and a handler response with
accepted status: the first pass returns the handler response tagged `MISS`
(with its ETag set), and a second identical pass serves from the stored entry
a response tagged `HIT` whose body bytes and media type equal the first
response's. -/
theorem c1_miss_then_hit (cfg : CacheConfig) (key_builder : Request → String)
    (caching_params : CachingParams) (handler : Request → Response) (store : Store)
    (request : Request)
    (hns : (cfg.concat_namespace && strTruthy cfg.inner_namespace &&
      strTruthy caching_params.nspace) = false)
    (hcond : strTruthy (dictGet request.headers "if-none-match") = false)
    (hget : store.get_fails = false)
    (hset : store.set_fails = false)
    (hmiss : dictGet store.entries (caching_params.nspace, key_builder request) = none)
    (hacc : (handler request).status_code ∈ cfg.accepted_status_codes) :
    (route_app cfg key_builder caching_params handler store request).1 =
      .ok { handler request with
            headers := set_cache_header cfg
              (set_etag (handler request).headers (handler request).body) false } ∧
    dictGet (set_cache_header cfg
        (set_etag (handler request).headers (handler request).body) false)
      cfg.cache_header = some cfg.cache_header_miss ∧
    (route_app cfg key_builder
        (route_app cfg key_builder caching_params handler store request).2.2 handler
        (route_app cfg key_builder caching_params handler store request).2.1
        request).1 =
      .ok { status_code := 200, body := (handler request).body,
            headers := set_cache_header cfg
              (set_etag (handler request).headers (handler request).body) true,
            media_type := (handler request).media_type } ∧
    dictGet (set_cache_header cfg
        (set_etag (handler request).headers (handler request).body) true)
      cfg.cache_header = some cfg.cache_header_hit := by
  have hcn : check_namespace cfg caching_params =
      (caching_params.nspace, caching_params) := by
    simp [check_namespace, hns]
  have h1 : route_app cfg key_builder caching_params handler store request =
      (.ok { handler request with
             headers := set_cache_header cfg
               (set_etag (handler request).headers (handler request).body) false },
       { store with
           entries :=
             dictSet store.entries (caching_params.nspace, key_builder request)
               ⟨(handler request).body,
                 set_etag (handler request).headers (handler request).body,
                 (handler request).media_type⟩ },
       caching_params) := by
    simp [route_app, hcn, store_get, hget, hmiss, hacc, store_set, hset]
  rw [h1]
  refine ⟨rfl, ?_, ?_, ?_⟩
  · simp [set_cache_header, dictGet_dictSet_self]
  · simp [route_app, hcn, store_get, hget, dictGet_dictSet_self,
      build_cached_response, hcond]
  · simp [set_cache_header, dictGet_dictSet_self]

theorem c1_witness :
    (cfgPlain.concat_namespace && strTruthy cfgPlain.inner_namespace &&
      strTruthy (CachingParams.mk none).nspace) = false ∧
    strTruthy (dictGet reqPlain.headers "if-none-match") = false ∧
    dictGet storeEmpty.entries ((CachingParams.mk none).nspace, kbConst reqPlain) =
      none ∧
    (route_app cfgPlain kbConst ⟨none⟩ handler200 storeEmpty reqPlain).1 =
      .ok { handler200 reqPlain with
            headers := set_cache_header cfgPlain
              (set_etag (handler200 reqPlain).headers (handler200 reqPlain).body)
              false } ∧
    (route_app cfgPlain kbConst
        (route_app cfgPlain kbConst ⟨none⟩ handler200 storeEmpty reqPlain).2.2
        handler200
        (route_app cfgPlain kbConst ⟨none⟩ handler200 storeEmpty reqPlain).2.1
        reqPlain).1 =
      .ok { status_code := 200, body := (handler200 reqPlain).body,
            headers := set_cache_header cfgPlain
              (set_etag (handler200 reqPlain).headers (handler200 reqPlain).body)
              true,
            media_type := (handler200 reqPlain).media_type } := by
  have h := c1_miss_then_hit cfgPlain kbConst ⟨none⟩ handler200 storeEmpty reqPlain
    (by decide) (by decide) rfl rfl (by decide) (by decide)
  exact ⟨by decide, by decide, by decide, h.1, h.2.2.1⟩
